import Mathlib

/-!
Shallow embedding of the deno-mcp-pandoc server's core logic:
format validation (src/validation.ts), error taxonomy (src/errors.ts),
filter path resolution (src/filters.ts), defaults-file validation
(src/defaults.ts), converter failure classification (src/converter.ts)
and the MCP tool-call handler (src/mcp.ts).

JavaScript optional string fields are modelled as `Option String`, and
JavaScript truthiness on such a field (`if (x)`, `x || d`, `!x`) is
modelled by `jsTruthy` / `jsOr`: `undefined` and the empty string are
falsy, every other string truthy.  Filesystem, path-library and
subprocess primitives, which the code consumes as black boxes, are
parameters of explicit environment structures.
-/

deriving instance DecidableEq for Except

namespace Pandoc

/-- JS `String.prototype.toLowerCase` on one character, over the basic latin
range (the same range Lean core's `Char.toLower` handles); every token the
code compares lowered strings against is basic latin. -/
def lowerChar (c : Char) : Char :=
  if 65 ≤ c.toNat ∧ c.toNat ≤ 90 then Char.ofNat (c.toNat + 32) else c

/-- JS `String.prototype.toLowerCase`, charwise over the string's data. -/
def lowerString (s : String) : String := ⟨s.data.map lowerChar⟩

/-- Substring containment on character lists (structural, so the kernel can
evaluate it on concrete strings). -/
def charsContain (l pat : List Char) : Bool :=
  match l with
  | [] => pat.isEmpty
  | _ :: tail => pat.isPrefixOf l || charsContain tail pat

/-- JS `String.prototype.includes`. -/
def containsSub (s pat : String) : Bool := charsContain s.data pat.data

/-- The `PandocFormat` enum of src/validation.ts. -/
inductive PandocFormat where
  | Markdown
  | HTML
  | Text
  | Jupyter
  | ODT
  | PDF
  | DOCX
  | ReStructuredText
  | LaTeX
  | EPUB
  deriving DecidableEq, Repr

/-- The string value attached to each `PandocFormat` member in src/validation.ts. -/
def PandocFormat.token : PandocFormat → String
  | .Markdown => "markdown"
  | .HTML => "html"
  | .Text => "plain"
  | .Jupyter => "ipynb"
  | .ODT => "odt"
  | .PDF => "pdf"
  | .DOCX => "docx"
  | .ReStructuredText => "rst"
  | .LaTeX => "latex"
  | .EPUB => "epub"

/-- `INPUT_FORMATS` of src/validation.ts: formats usable as input. -/
def INPUT_FORMATS : List PandocFormat :=
  [.Markdown, .HTML, .Text, .Jupyter, .ODT, .DOCX, .ReStructuredText, .LaTeX, .EPUB]

/-- `ALL_FORMATS` of src/validation.ts: input formats plus PDF. -/
def ALL_FORMATS : List PandocFormat :=
  INPUT_FORMATS ++ [.PDF]

/-- `FILE_OUTPUT_REQUIRED_FORMATS` of src/validation.ts. -/
def FILE_OUTPUT_REQUIRED_FORMATS : List PandocFormat :=
  [.PDF, .DOCX, .EPUB, .ODT]

/-- The typed error taxonomy of src/errors.ts.  Each constructor carries the
data its class's constructor receives; message rendering is separate. -/
inductive PandocError where
  | pandocNotFound
  | unsupportedFormat (format : String) (context : String)
  | conversionError (message : String)
  | filterNotFound (filterName : String) (searchPaths : List String)
  | defaultsFileError (message : String) (filePath : Option String)
  | validationError (message : String)
  | genericError (message : String)
  deriving DecidableEq, Repr

/-- Whether an error is the `ValidationError` kind of src/errors.ts. -/
def PandocError.isValidationError : PandocError → Bool
  | .validationError _ => true
  | _ => false

/-- JavaScript truthiness of an optional string: `undefined` and `""` are falsy. -/
def jsTruthy : Option String → Bool
  | none => false
  | some s => s ≠ ""

/-- JavaScript `x || d` on an optional string. -/
def jsOr (x : Option String) (d : String) : String :=
  match x with
  | none => d
  | some s => if s = "" then d else s

/-- `validateFormat` of src/validation.ts: lower-case, map the legacy `txt`
alias to `plain`, reject tokens outside `ALL_FORMATS` echoing the raw input,
then reject members outside `allowedFormats` with context `for input` exactly
when the allowed list is `INPUT_FORMATS` (the source compares the list
references; the two call sites pass the two distinct constants, so list
equality coincides with reference equality). -/
def validateFormat (format : String) (allowedFormats : List PandocFormat) :
    Except PandocError PandocFormat :=
  let normalized := lowerString format
  let normalized := if normalized = "txt" then "plain" else normalized
  match ALL_FORMATS.find? (fun f => f.token = normalized) with
  | none => .error (.unsupportedFormat format "")
  | some pandocFormat =>
    if allowedFormats.contains pandocFormat then
      .ok pandocFormat
    else
      let context := if allowedFormats = INPUT_FORMATS then "for input" else ""
      .error (.unsupportedFormat format context)

/-- `validateInputFormat` of src/validation.ts. -/
def validateInputFormat (format : String) : Except PandocError PandocFormat :=
  validateFormat format INPUT_FORMATS

/-- `validateOutputFormat` of src/validation.ts. -/
def validateOutputFormat (format : String) : Except PandocError PandocFormat :=
  validateFormat format ALL_FORMATS

/-- `requiresFileOutput` of src/validation.ts. -/
def requiresFileOutput (format : PandocFormat) : Bool :=
  FILE_OUTPUT_REQUIRED_FORMATS.contains format

/-- The `ConversionParams` record of src/validation.ts. -/
structure ConversionParams where
  contents : Option String
  inputFile : Option String
  inputFormat : String
  outputFormat : String
  outputFile : Option String
  referenceDoc : Option String
  defaultsFile : Option String
  filters : Option (List String)
  deriving Repr

/-- `validateConversionParams` of src/validation.ts. -/
def validateConversionParams (params : ConversionParams) :
    Except PandocError (PandocFormat × PandocFormat) := do
  if jsTruthy params.contents && jsTruthy params.inputFile then
    throw (.validationError
      "Cannot specify both 'contents' and 'input_file'. Please provide only one.")
  if !jsTruthy params.contents && !jsTruthy params.inputFile then
    throw (.validationError
      "Must specify either 'contents' or 'input_file' for conversion.")
  let inputFormat ← validateInputFormat params.inputFormat
  let outputFormat ← validateOutputFormat params.outputFormat
  if requiresFileOutput outputFormat && !jsTruthy params.outputFile then
    throw (.validationError
      ("Output format '" ++ outputFormat.token ++ "' requires 'output_file' to be specified."))
  return (inputFormat, outputFormat)

/-- Environment of src/filters.ts: platform facts (`Deno.build.os`,
`Deno.env.get`, `Deno.cwd`), the `@std/path` helpers `isAbsolute`/`join`
(consumed as a library, so kept abstract), and the filesystem predicate
behind `exists(p, \x7b isFile: true \x7d)`. -/
structure FilterEnv where
  osWindows : Bool
  envGet : String → Option String
  cwd : String
  isAbsolute : String → Bool
  join : String → String → String
  isFile : String → Bool

/-- `getHomeDir` of src/filters.ts (JS `||` falls through empty strings). -/
def getHomeDir (env : FilterEnv) : String :=
  if env.osWindows then
    jsOr (env.envGet "USERPROFILE") (jsOr (env.envGet "HOME") "C:\\")
  else
    jsOr (env.envGet "HOME") "/"

/-- `getPandocFiltersDir` of src/filters.ts: `join(getHomeDir(), ".pandoc", "filters")`. -/
def getPandocFiltersDir (env : FilterEnv) : String :=
  env.join (env.join (getHomeDir env) ".pandoc") "filters"

/-- `resolveFilterPath` of src/filters.ts.  The best-effort `makeExecutable`
chmod on a hit ignores its own failure and never changes the returned value,
so it is dropped from this value-level embedding. -/
def resolveFilterPath (env : FilterEnv) (filterName : String)
    (defaultsFileDir : Option String := none) : Except PandocError String :=
  let searchPaths : List String := []
  let searchPaths :=
    if env.isAbsolute filterName then searchPaths ++ [filterName] else searchPaths
  if env.isAbsolute filterName && env.isFile filterName then
    .ok filterName
  else
    let cwdPath := env.join env.cwd filterName
    let searchPaths := searchPaths ++ [cwdPath]
    if env.isFile cwdPath then
      .ok cwdPath
    else
      match defaultsFileDir with
      | some dir =>
        let defaultsDirPath := env.join dir filterName
        let searchPaths := searchPaths ++ [defaultsDirPath]
        if env.isFile defaultsDirPath then
          .ok defaultsDirPath
        else
          let pandocFiltersPath := env.join (getPandocFiltersDir env) filterName
          let searchPaths := searchPaths ++ [pandocFiltersPath]
          if env.isFile pandocFiltersPath then
            .ok pandocFiltersPath
          else
            .error (.filterNotFound filterName searchPaths)
      | none =>
        let pandocFiltersPath := env.join (getPandocFiltersDir env) filterName
        let searchPaths := searchPaths ++ [pandocFiltersPath]
        if env.isFile pandocFiltersPath then
          .ok pandocFiltersPath
        else
          .error (.filterNotFound filterName searchPaths)

/-- `resolveFilterPaths` of src/filters.ts: resolve each name in order,
failing on the first unresolved one. -/
def resolveFilterPaths (env : FilterEnv) (filterNames : List String)
    (defaultsFileDir : Option String := none) : Except PandocError (List String) :=
  filterNames.mapM (fun n => resolveFilterPath env n defaultsFileDir)

/-- The ordered candidate list src/filters.ts tests: the name itself when
absolute, the cwd join, the defaults-dir join when supplied, the
`~/.pandoc/filters` join. -/
def filterCandidates (env : FilterEnv) (filterName : String)
    (defaultsFileDir : Option String) : List String :=
  (if env.isAbsolute filterName then [filterName] else [])
    ++ [env.join env.cwd filterName]
    ++ (match defaultsFileDir with
        | some dir => [env.join dir filterName]
        | none => [])
    ++ [env.join (getPandocFiltersDir env) filterName]

/-- Values the `@std/yaml` parser can return, as src/defaults.ts inspects
them: YAML null, a non-null primitive scalar, an array, or a string-keyed
mapping. -/
inductive YamlValue where
  | null
  | scalar (s : String)
  | arr (xs : List YamlValue)
  | obj (entries : List (String × YamlValue))

/-- Key lookup on a parsed mapping: `obj[k] !== undefined` in src/defaults.ts
is key presence (a key bound to YAML null still counts as present). -/
def YamlValue.hasKey (entries : List (String × YamlValue)) (k : String) : Bool :=
  entries.any (fun e => e.1 = k)

/-- Environment of src/defaults.ts: the filesystem predicate behind
`exists(p, \x7b isFile: true \x7d)`, `Deno.readTextFile` (total here: the claims
do not cover a read that fails after the existence check), and the
`@std/yaml` `parse` consumed as a library. -/
structure DefaultsEnv where
  isFile : String → Bool
  readTextFile : String → String
  parseYaml : String → Except String YamlValue

/-- `validateDefaultsFile` of src/defaults.ts. -/
def validateDefaultsFile (env : DefaultsEnv) (filePath : String) :
    Except PandocError Bool :=
  if !env.isFile filePath then
    .error (.defaultsFileError "File not found" (some filePath))
  else
    match env.parseYaml (env.readTextFile filePath) with
    | .error msg =>
      .error (.defaultsFileError ("Failed to parse YAML: " ++ msg) (some filePath))
    | .ok parsed =>
      match parsed with
      | .null =>
        .error (.defaultsFileError "Defaults file is empty" (some filePath))
      | .scalar _ =>
        .error (.defaultsFileError
          "Defaults file must contain a YAML object/dictionary, not a list or primitive value"
          (some filePath))
      | .arr _ =>
        .error (.defaultsFileError
          "Defaults file must contain a YAML object/dictionary, not a list or primitive value"
          (some filePath))
      | .obj entries =>
        if YamlValue.hasKey entries "from" && YamlValue.hasKey entries "to" then
          .error (.defaultsFileError
            ("Defaults file should not specify both 'from' and 'to' formats. "
              ++ "These will be provided via command-line arguments.")
            (some filePath))
        else
          .ok true

/-- `readDefaultsFile` of src/defaults.ts: validate, then re-read and
re-parse, returning the parsed value (the source's cast to a record is
justified by validation having passed). -/
def readDefaultsFile (env : DefaultsEnv) (filePath : String) :
    Except PandocError YamlValue := do
  let _ ← validateDefaultsFile env filePath
  match env.parseYaml (env.readTextFile filePath) with
  | .ok parsed => return parsed
  | .error msg =>
    .error (.defaultsFileError ("Failed to parse YAML: " ++ msg) (some filePath))

/-- The error-message test shared by `convertText`, `convertFile` and
`getPandocVersion` in src/converter.ts: lower-case the failure message and
look for an indication that the pandoc binary could not be located. -/
def isNotFoundMessage (message : String) : Bool :=
  let m := lowerString message
  containsSub m "not found" || containsSub m "no such file"
    || containsSub m "enoent"

/-- The catch-block classification of src/converter.ts `convertText` /
`convertFile`: a located-binary failure becomes `PandocNotFoundError`,
every other failure a `ConversionError` with the raw engine text. -/
def classifyConversionFailure (message : String) : PandocError :=
  if isNotFoundMessage message then
    .pandocNotFound
  else
    .conversionError ("Pandoc conversion failed: " ++ message)

/-- `PandocConverter.convertText` of src/converter.ts over the outcome of the
underlying dax subprocess call (ok: captured stdout; error: the thrown
message). -/
def convertText (run : Except String String) : Except PandocError String :=
  match run with
  | .ok out => .ok out
  | .error msg => .error (classifyConversionFailure msg)

/-- `PandocConverter.convertFile` of src/converter.ts over the outcome of the
underlying dax subprocess call. -/
def convertFile (run : Except String Unit) : Except PandocError Unit :=
  match run with
  | .ok _ => .ok ()
  | .error msg => .error (classifyConversionFailure msg)

/-- The raw `convert-contents` tool arguments as src/mcp.ts reads them from
`request.params.arguments`. -/
structure ToolArgs where
  contents : Option String
  inFile : Option String
  inFormat : Option String
  outFormat : Option String
  outFile : Option String
  referenceDoc : Option String
  defaultsFile : Option String
  filters : Option (List String)
  deriving Repr

/-- Observable side steps of the src/mcp.ts tool handler, in execution
order: the defaults-file check, filter resolution, and spawning the pandoc
subprocess (inline or file-to-file). -/
inductive HandlerEffect where
  | checkDefaults (path : String)
  | resolveFilters (names : List String)
  | spawnConvertText
  | spawnConvertFile
  deriving DecidableEq, Repr

/-- Environment of the src/mcp.ts handler: the filter and defaults
environments, the `@std/path` `dirname` (library, abstract), and the
outcomes the dax subprocess calls would produce if spawned. -/
structure HandlerEnv where
  filterEnv : FilterEnv
  defaultsEnv : DefaultsEnv
  dirname : String → String
  runText : Except String String
  runFile : Except String Unit

/-- The `CallToolRequestSchema` handler body of src/mcp.ts for the
`convert-contents` tool, returning the response text (or first error)
together with the ordered trace of side steps it performed. -/
def handleConvertContents (env : HandlerEnv) (args : ToolArgs) :
    Except PandocError String × List HandlerEffect :=
  match validateConversionParams
      { contents := args.contents
        inputFile := args.inFile
        inputFormat := jsOr args.inFormat "markdown"
        outputFormat := jsOr args.outFormat "markdown"
        outputFile := args.outFile
        referenceDoc := args.referenceDoc
        defaultsFile := args.defaultsFile
        filters := args.filters } with
  | .error e => (.error e, [])
  | .ok (_inputFormat, _outputFormat) =>
    let defaultsStep : Except PandocError (Option String) × List HandlerEffect :=
      match args.defaultsFile with
      | some path =>
        if path = "" then (.ok none, [])
        else
          match validateDefaultsFile env.defaultsEnv path with
          | .error e => (.error e, [.checkDefaults path])
          | .ok _ => (.ok (some (env.dirname path)), [.checkDefaults path])
      | none => (.ok none, [])
    match defaultsStep with
    | (.error e, tr1) => (.error e, tr1)
    | (.ok defaultsFileDir, tr1) =>
      let filtersStep : Except PandocError (Option (List String)) × List HandlerEffect :=
        match args.filters with
        | some names =>
          match resolveFilterPaths env.filterEnv names defaultsFileDir with
          | .error e => (.error e, [.resolveFilters names])
          | .ok resolved => (.ok (some resolved), [.resolveFilters names])
        | none => (.ok none, [])
      match filtersStep with
      | (.error e, tr2) => (.error e, tr1 ++ tr2)
      | (.ok _resolvedFilters, tr2) =>
        if jsTruthy args.contents then
          match convertText env.runText with
          | .ok result => (.ok result, tr1 ++ tr2 ++ [.spawnConvertText])
          | .error e => (.error e, tr1 ++ tr2 ++ [.spawnConvertText])
        else if jsTruthy args.inFile && jsTruthy args.outFile then
          match convertFile env.runFile with
          | .ok _ =>
            (.ok ("Successfully converted " ++ jsOr args.inFile ""
                ++ " to " ++ jsOr args.outFile ""),
              tr1 ++ tr2 ++ [.spawnConvertFile])
          | .error e => (.error e, tr1 ++ tr2 ++ [.spawnConvertFile])
        else
          (.error (.genericError
              "Invalid arguments: must provide contents or both input_file and output_file"),
            tr1 ++ tr2)

/-- A concrete POSIX-style filter environment with an empty filesystem,
used to evaluate `resolveFilterPath` on explicit inputs. -/
def sampleFilterEnv : FilterEnv where
  osWindows := false
  envGet := fun _ => none
  cwd := "/cwd"
  isAbsolute := fun s => s.data.head? = some '/'
  join := fun a b => a ++ "/" ++ b
  isFile := fun _ => false

/-- A concrete defaults environment holding one file of each validation
outcome, used to evaluate `validateDefaultsFile` on explicit inputs. -/
def sampleDefaultsEnv : DefaultsEnv where
  isFile := fun p =>
    p = "ok.yaml" || p = "list.yaml" || p = "both.yaml"
      || p = "empty.yaml" || p = "bad.yaml"
  readTextFile := fun p => p
  parseYaml := fun t =>
    if t = "ok.yaml" then .ok (.obj [("standalone", .scalar "true")])
    else if t = "list.yaml" then .ok (.arr [])
    else if t = "both.yaml" then
      .ok (.obj [("from", .scalar "markdown"), ("to", .scalar "html")])
    else if t = "empty.yaml" then .ok .null
    else .error "unexpected token"

/-- A concrete handler environment, used to evaluate the tool handler on
explicit requests. -/
def sampleHandlerEnv : HandlerEnv where
  filterEnv := sampleFilterEnv
  defaultsEnv := sampleDefaultsEnv
  dirname := fun _ => "."
  runText := .ok "converted"
  runFile := .ok ()

/-- When exactly one content source is supplied, `validateConversionParams`
reduces to format validation followed by the file-output check. -/
lemma validateConversionParams_eq_of_one (p : ConversionParams)
    (h : jsTruthy p.contents ≠ jsTruthy p.inputFile) :
    validateConversionParams p =
      (match validateInputFormat p.inputFormat with
       | .error e => .error e
       | .ok fi =>
         match validateOutputFormat p.outputFormat with
         | .error e => .error e
         | .ok fo =>
           if requiresFileOutput fo && !jsTruthy p.outputFile then
             .error (.validationError
               ("Output format '" ++ fo.token ++ "' requires 'output_file' to be specified."))
           else .ok (fi, fo)) := by
  unfold validateConversionParams
  cases hc : jsTruthy p.contents <;> cases hi : jsTruthy p.inputFile <;> simp_all <;>
    cases hfi : validateInputFormat p.inputFormat <;>
      cases hfo : validateOutputFormat p.outputFormat <;>
        simp [hfi, hfo, Bind.bind, Except.bind, pure, Except.pure,
          throw, throwThe, MonadExceptOf.throw]

/-- C1: `validateConversionParams` checks its rules in the stated order with
the first violation winning: both content sources present fails with the
`cannot specify both` message; neither present fails with the
`must specify either` message; otherwise the input format is normalized via
the input-capable path and the output format via the full path, each failure
propagated verbatim; then a file-output-requiring output format without an
output file fails with the `requires output_file` message; otherwise the two
normalized formats are returned.  The embedding is a pure function of its
input, matching the no-side-effects clause by construction. -/
theorem validateConversionParams_ordered_rules (p : ConversionParams) :
    (jsTruthy p.contents = true → jsTruthy p.inputFile = true →
      validateConversionParams p = .error (.validationError
        "Cannot specify both 'contents' and 'input_file'. Please provide only one."))
    ∧ (jsTruthy p.contents = false → jsTruthy p.inputFile = false →
      validateConversionParams p = .error (.validationError
        "Must specify either 'contents' or 'input_file' for conversion."))
    ∧ (∀ e, jsTruthy p.contents ≠ jsTruthy p.inputFile →
      validateInputFormat p.inputFormat = .error e →
      validateConversionParams p = .error e)
    ∧ (∀ fi e, jsTruthy p.contents ≠ jsTruthy p.inputFile →
      validateInputFormat p.inputFormat = .ok fi →
      validateOutputFormat p.outputFormat = .error e →
      validateConversionParams p = .error e)
    ∧ (∀ fi fo, jsTruthy p.contents ≠ jsTruthy p.inputFile →
      validateInputFormat p.inputFormat = .ok fi →
      validateOutputFormat p.outputFormat = .ok fo →
      requiresFileOutput fo = true → jsTruthy p.outputFile = false →
      validateConversionParams p = .error (.validationError
        ("Output format '" ++ fo.token ++ "' requires 'output_file' to be specified.")))
    ∧ (∀ fi fo, jsTruthy p.contents ≠ jsTruthy p.inputFile →
      validateInputFormat p.inputFormat = .ok fi →
      validateOutputFormat p.outputFormat = .ok fo →
      (requiresFileOutput fo && !jsTruthy p.outputFile) = false →
      validateConversionParams p = .ok (fi, fo)) := by
  refine ⟨?_, ?_, ?_, ?_, ?_, ?_⟩
  · intro h1 h2
    unfold validateConversionParams
    simp [h1, h2, throw, throwThe, MonadExceptOf.throw, Bind.bind, Except.bind, pure, Except.pure]
  · intro h1 h2
    unfold validateConversionParams
    simp [h1, h2, throw, throwThe, MonadExceptOf.throw, Bind.bind, Except.bind, pure, Except.pure]
  · intro e hone hin
    rw [validateConversionParams_eq_of_one p hone, hin]
  · intro fi e hone hin hout
    rw [validateConversionParams_eq_of_one p hone, hin, hout]
  · intro fi fo hone hin hout hreq hof
    rw [validateConversionParams_eq_of_one p hone, hin, hout]
    simp [hreq, hof]
  · intro fi fo hone hin hout hguard
    rw [validateConversionParams_eq_of_one p hone, hin, hout]
    simp [hguard]

/-- Witness for C1 at a concrete success request: inline contents only,
formats `markdown` and `HTML`, no output file. -/
theorem validateConversionParams_ordered_rules_witness :
    validateConversionParams
      { contents := some "# hi", inputFile := none, inputFormat := "markdown",
        outputFormat := "HTML", outputFile := none, referenceDoc := none,
        defaultsFile := none, filters := none }
      = .ok (.Markdown, .HTML) :=
  (validateConversionParams_ordered_rules _).2.2.2.2.2 .Markdown .HTML
    (by decide) (by decide) (by decide) (by decide)

/-- `resolveFilterPath` is first-hit search over the ordered candidate
list, failing with the tried list when nothing hits. -/
lemma resolveFilterPath_eq_find (env : FilterEnv) (n : String) (d : Option String) :
    resolveFilterPath env n d =
      match (filterCandidates env n d).find? env.isFile with
      | some p => .ok p
      | none => .error (.filterNotFound n (filterCandidates env n d)) := by
  unfold resolveFilterPath filterCandidates
  cases hAbs : env.isAbsolute n <;> cases d <;>
    simp only [hAbs, Bool.false_and, Bool.true_and, if_false, if_true,
      Bool.false_eq_true, List.nil_append, List.cons_append, List.append_nil] <;>
    by_cases h1 : env.isFile n <;>
    by_cases h2 : env.isFile (env.join env.cwd n) <;>
    simp_all [List.find?] <;>
    (repeat' split) <;> simp_all

/-- C5: for every filter name and optional auxiliary directory,
`resolveFilterPath` returns the first existing regular file among the
candidates in the fixed order: the name itself when absolute, the name
joined onto the current working directory, the name joined onto the
auxiliary directory when supplied, the name joined onto the per-user
`.pandoc/filters` directory. -/
theorem resolveFilterPath_search_order (env : FilterEnv) (n : String)
    (d : Option String) :
    resolveFilterPath env n d =
      match (filterCandidates env n d).find? env.isFile with
      | some p => .ok p
      | none => .error (.filterNotFound n (filterCandidates env n d)) :=
  resolveFilterPath_eq_find env n d

/-- Counterexample to C6 as stated: a non-absolute name with no auxiliary
directory and an empty filesystem fails with a tried-paths list of two
entries, not four. -/
theorem filter_four_tried_paths_cex :
    resolveFilterPath sampleFilterEnv "f" none
      = .error (.filterNotFound "f" ["/cwd/f", "//.pandoc/filters/f"])
    ∧ (["/cwd/f", "//.pandoc/filters/f"] : List String).length ≠ 4 := by
  decide

/-- C6 amended: when no searched location holds the filter,
`resolveFilterPath` fails with `FilterNotFoundError` carrying the name and
the full ordered list of paths tried; that list has the two unconditional
entries plus one for an absolute name plus one for a supplied auxiliary
directory (so two to four entries, four exactly when the name is absolute
and an auxiliary directory was supplied). -/
theorem filter_miss_tried_paths (env : FilterEnv) (n : String) (d : Option String)
    (h : ∀ p ∈ filterCandidates env n d, env.isFile p = false) :
    resolveFilterPath env n d = .error (.filterNotFound n (filterCandidates env n d))
    ∧ (filterCandidates env n d).length =
        2 + (if env.isAbsolute n then 1 else 0) + (if d.isSome then 1 else 0) := by
  constructor
  · rw [resolveFilterPath_eq_find]
    have hfind : (filterCandidates env n d).find? env.isFile = none := by
      rw [List.find?_eq_none]
      intro x hx
      simp [h x hx]
    rw [hfind]
  · unfold filterCandidates
    cases hAbs : env.isAbsolute n <;> cases d <;> simp

/-- Witness for the amended C6 at a concrete bare name with no auxiliary
directory: the tried list has exactly its two applicable entries. -/
theorem filter_miss_tried_paths_witness :
    resolveFilterPath sampleFilterEnv "f" none
      = .error (.filterNotFound "f" (filterCandidates sampleFilterEnv "f" none))
    ∧ (filterCandidates sampleFilterEnv "f" none).length =
        2 + (if sampleFilterEnv.isAbsolute "f" then 1 else 0)
          + (if (none : Option String).isSome then 1 else 0) :=
  filter_miss_tried_paths sampleFilterEnv "f" none (by decide)

/-- C2: every string whose lowering is a supported canonical token
normalizes to that member, every string lowering to the legacy alias `txt`
normalizes to the plain-text member, and every other string is rejected
with `UnsupportedFormatError` echoing the raw, non-lowered input. -/
theorem normalize_total_spec (s : String) :
    (∀ f : PandocFormat, lowerString s = f.token → validateOutputFormat s = .ok f)
    ∧ (lowerString s = "txt" → validateOutputFormat s = .ok .Text)
    ∧ ((∀ f : PandocFormat, lowerString s ≠ f.token) → lowerString s ≠ "txt" →
        validateOutputFormat s = .error (.unsupportedFormat s "")) := by
  refine ⟨?_, ?_, ?_⟩
  · intro f h
    cases f <;> simp only [validateOutputFormat, validateFormat, h] <;> rfl
  · intro h
    simp only [validateOutputFormat, validateFormat, h]
    rfl
  · intro hne htxt
    have hfind : ALL_FORMATS.find? (fun f => f.token = lowerString s) = none := by
      rw [List.find?_eq_none]
      intro f _ hf
      exact hne f (by simpa using (of_decide_eq_true hf).symm)
    simp only [validateOutputFormat, validateFormat, if_neg htxt, hfind]

/-- Witness for C2 at concrete tokens: a mixed-case supported token, the
legacy alias in upper case, and an unknown token. -/
theorem normalize_total_spec_witness :
    validateOutputFormat "MarkDown" = .ok .Markdown
    ∧ validateOutputFormat "TXT" = .ok .Text
    ∧ validateOutputFormat "bogus" = .error (.unsupportedFormat "bogus" "") :=
  ⟨(normalize_total_spec "MarkDown").1 .Markdown (by decide),
   (normalize_total_spec "TXT").2.1 (by decide),
   (normalize_total_spec "bogus").2.2 (by intro f; cases f <;> decide) (by decide)⟩

/-- C3: the output-only token `pdf` fails input-format validation with the
`for input` context — an error distinct from the unknown-token error for the
same string — and succeeds through output-format validation. -/
theorem pdf_input_vs_output :
    validateInputFormat "pdf" = .error (.unsupportedFormat "pdf" "for input")
    ∧ validateOutputFormat "pdf" = .ok .PDF
    ∧ (PandocError.unsupportedFormat "pdf" "for input")
        ≠ .unsupportedFormat "pdf" "" := by
  refine ⟨?_, ?_, ?_⟩ <;> decide

/-- C4: `requiresFileOutput` holds for exactly the four binary/office/e-book/
output-only members and fails for the six text-like members. -/
theorem requiresFileOutput_exactly (f : PandocFormat) :
    requiresFileOutput f = true
      ↔ (f = .PDF ∨ f = .DOCX ∨ f = .EPUB ∨ f = .ODT) := by
  cases f <;> simp [requiresFileOutput, FILE_OUTPUT_REQUIRED_FORMATS]

/-- The only ok value `validateDefaultsFile` ever returns is `true`. -/
lemma validateDefaultsFile_ok_true (env : DefaultsEnv) (p : String) (b : Bool)
    (h : validateDefaultsFile env p = .ok b) : b = true := by
  unfold validateDefaultsFile at h
  repeat' split at h
  all_goals simp_all

/-- Every failure of `validateDefaultsFile` is a `DefaultsFileError`
carrying the offending path. -/
lemma validateDefaultsFile_err_shape (env : DefaultsEnv) (p : String)
    (e : PandocError) (h : validateDefaultsFile env p = .error e) :
    ∃ m, e = .defaultsFileError m (some p) := by
  unfold validateDefaultsFile at h
  repeat' split at h
  all_goals first
    | (injection h with h2; exact ⟨_, h2.symm⟩)
    | (injection h)
/-- C7: `validateDefaultsFile` fails with a `DefaultsFileError`, and only
with one, exactly in these cases: missing regular file (`File not found`);
YAML parse failure (rewrapped with the underlying message); parsed YAML
null (`empty`); parsed array or non-mapping scalar (`must contain a YAML
object`); mapping with both `from` and `to` keys (reserved-key conflict).
A mapping without both direction keys validates as `true`, and
`readDefaultsFile` propagates any validation failure and only returns the
parsed mapping when validation succeeded. -/
theorem validateDefaultsFile_cases (env : DefaultsEnv) (p : String) :
    (env.isFile p = false →
      validateDefaultsFile env p = .error (.defaultsFileError "File not found" (some p)))
    ∧ (∀ m, env.isFile p = true →
      env.parseYaml (env.readTextFile p) = .error m →
      validateDefaultsFile env p
        = .error (.defaultsFileError ("Failed to parse YAML: " ++ m) (some p)))
    ∧ (env.isFile p = true → env.parseYaml (env.readTextFile p) = .ok .null →
      validateDefaultsFile env p
        = .error (.defaultsFileError "Defaults file is empty" (some p)))
    ∧ (∀ xs, env.isFile p = true →
      env.parseYaml (env.readTextFile p) = .ok (.arr xs) →
      validateDefaultsFile env p = .error (.defaultsFileError
        "Defaults file must contain a YAML object/dictionary, not a list or primitive value"
        (some p)))
    ∧ (∀ s, env.isFile p = true →
      env.parseYaml (env.readTextFile p) = .ok (.scalar s) →
      validateDefaultsFile env p = .error (.defaultsFileError
        "Defaults file must contain a YAML object/dictionary, not a list or primitive value"
        (some p)))
    ∧ (∀ es, env.isFile p = true →
      env.parseYaml (env.readTextFile p) = .ok (.obj es) →
      (YamlValue.hasKey es "from" && YamlValue.hasKey es "to") = true →
      validateDefaultsFile env p = .error (.defaultsFileError
        ("Defaults file should not specify both 'from' and 'to' formats. "
          ++ "These will be provided via command-line arguments.") (some p)))
    ∧ (∀ es, env.isFile p = true →
      env.parseYaml (env.readTextFile p) = .ok (.obj es) →
      (YamlValue.hasKey es "from" && YamlValue.hasKey es "to") = false →
      validateDefaultsFile env p = .ok true)
    ∧ (∀ e, validateDefaultsFile env p = .error e →
      ∃ m, e = .defaultsFileError m (some p))
    ∧ (∀ e, validateDefaultsFile env p = .error e →
      readDefaultsFile env p = .error e)
    ∧ (∀ v, readDefaultsFile env p = .ok v →
      validateDefaultsFile env p = .ok true
        ∧ env.parseYaml (env.readTextFile p) = .ok v) := by
  refine ⟨?_, ?_, ?_, ?_, ?_, ?_, ?_, ?_, ?_, ?_⟩
  · intro hf
    simp [validateDefaultsFile, hf]
  · intro m hf hp
    simp [validateDefaultsFile, hf, hp]
  · intro hf hp
    simp [validateDefaultsFile, hf, hp]
  · intro xs hf hp
    simp [validateDefaultsFile, hf, hp]
  · intro s hf hp
    simp [validateDefaultsFile, hf, hp]
  · intro es hf hp hk
    simp [validateDefaultsFile, hf, hp, hk]
  · intro es hf hp hk
    simp [validateDefaultsFile, hf, hp, hk]
  · exact validateDefaultsFile_err_shape env p
  · intro e he
    simp [readDefaultsFile, he, Bind.bind, Except.bind]
  · intro v hv
    unfold readDefaultsFile at hv
    cases hval : validateDefaultsFile env p with
    | error e => simp [hval, Bind.bind, Except.bind] at hv
    | ok b =>
      have hb := validateDefaultsFile_ok_true env p b hval
      subst hb
      refine ⟨rfl, ?_⟩
      cases hp : env.parseYaml (env.readTextFile p) with
      | ok parsed =>
        simp [hval, hp, Bind.bind, Except.bind, pure, Except.pure] at hv
        rw [hv]
      | error m =>
        simp [hval, hp, Bind.bind, Except.bind] at hv

/-- Witness for C7: each validation outcome at a concrete file of the
sample defaults environment. -/
theorem validateDefaultsFile_cases_witness :
    validateDefaultsFile sampleDefaultsEnv "missing.yaml"
      = .error (.defaultsFileError "File not found" (some "missing.yaml"))
    ∧ validateDefaultsFile sampleDefaultsEnv "bad.yaml"
      = .error (.defaultsFileError "Failed to parse YAML: unexpected token"
          (some "bad.yaml"))
    ∧ validateDefaultsFile sampleDefaultsEnv "empty.yaml"
      = .error (.defaultsFileError "Defaults file is empty" (some "empty.yaml"))
    ∧ validateDefaultsFile sampleDefaultsEnv "list.yaml"
      = .error (.defaultsFileError
          "Defaults file must contain a YAML object/dictionary, not a list or primitive value"
          (some "list.yaml"))
    ∧ validateDefaultsFile sampleDefaultsEnv "both.yaml"
      = .error (.defaultsFileError
          ("Defaults file should not specify both 'from' and 'to' formats. "
            ++ "These will be provided via command-line arguments.")
          (some "both.yaml"))
    ∧ validateDefaultsFile sampleDefaultsEnv "ok.yaml" = .ok true :=
  ⟨(validateDefaultsFile_cases sampleDefaultsEnv "missing.yaml").1 (by decide),
   (validateDefaultsFile_cases sampleDefaultsEnv "bad.yaml").2.1
     "unexpected token" (by decide) rfl,
   (validateDefaultsFile_cases sampleDefaultsEnv "empty.yaml").2.2.1
     (by decide) rfl,
   (validateDefaultsFile_cases sampleDefaultsEnv "list.yaml").2.2.2.1
     [] (by decide) rfl,
   (validateDefaultsFile_cases sampleDefaultsEnv "both.yaml").2.2.2.2.2.1
     [("from", .scalar "markdown"), ("to", .scalar "html")]
     (by decide) rfl (by decide),
   (validateDefaultsFile_cases sampleDefaultsEnv "ok.yaml").2.2.2.2.2.2.1
     [("standalone", .scalar "true")] (by decide) rfl (by decide)⟩


/-- C8: for both inline and file-to-file conversion, a failure whose
message (lower-cased) contains `not found`, `no such file` or `enoent` is
classified as the engine-not-found error, and every other failure becomes a
`ConversionError` carrying the raw engine text; the classification is
exclusive, so the two kinds are never coerced into one another. -/
theorem conversion_failure_classification (msg : String) :
    (isNotFoundMessage msg = true →
      convertText (.error msg) = .error .pandocNotFound
      ∧ convertFile (.error msg) = .error .pandocNotFound)
    ∧ (isNotFoundMessage msg = false →
      convertText (.error msg)
        = .error (.conversionError ("Pandoc conversion failed: " ++ msg))
      ∧ convertFile (.error msg)
        = .error (.conversionError ("Pandoc conversion failed: " ++ msg)))
    ∧ (classifyConversionFailure msg = .pandocNotFound
        ↔ isNotFoundMessage msg = true) := by
  refine ⟨?_, ?_, ?_, ?_⟩
  · intro h
    simp [convertText, convertFile, classifyConversionFailure, h]
  · intro h
    simp [convertText, convertFile, classifyConversionFailure, h]
  · intro h
    by_contra hne
    rw [Bool.not_eq_true] at hne
    simp [classifyConversionFailure, hne] at h
  · intro h
    simp [classifyConversionFailure, h]

/-- Witness for C8 at a spawn failure mentioning the missing binary and at
an ordinary engine failure. -/
theorem conversion_failure_classification_witness :
    (convertText (.error "Error: ENOENT: no such file or directory")
        = .error .pandocNotFound
      ∧ convertFile (.error "Error: ENOENT: no such file or directory")
        = .error .pandocNotFound)
    ∧ (convertText (.error "Exited with code: 64")
        = .error (.conversionError "Pandoc conversion failed: Exited with code: 64")
      ∧ convertFile (.error "Exited with code: 64")
        = .error (.conversionError "Pandoc conversion failed: Exited with code: 64")) :=
  ⟨(conversion_failure_classification "Error: ENOENT: no such file or directory").1
      (by decide),
   (conversion_failure_classification "Exited with code: 64").2.1 (by decide)⟩

/-- C9: a tool request with truthy inline contents, output format token
`pdf`, no (truthy) output file, and an input-format token that passes
input validation fails with a `ValidationError` from the parameter
validator, and the handler stops there: no defaults check, no filter
resolution, and no pandoc subprocess appears in its effect trace. -/
theorem pdf_inline_no_spawn (env : HandlerEnv) (args : ToolArgs)
    (hc : jsTruthy args.contents = true)
    (hout : args.outFormat = some "pdf")
    (hof : jsTruthy args.outFile = false)
    (hin : (validateInputFormat (jsOr args.inFormat "markdown")).isOk = true) :
    ∃ m, handleConvertContents env args = (.error (.validationError m), []) := by
  unfold handleConvertContents
  by_cases hif : jsTruthy args.inFile = true
  · have hval : validateConversionParams
        { contents := args.contents, inputFile := args.inFile,
          inputFormat := jsOr args.inFormat "markdown",
          outputFormat := jsOr args.outFormat "markdown",
          outputFile := args.outFile, referenceDoc := args.referenceDoc,
          defaultsFile := args.defaultsFile, filters := args.filters }
        = .error (.validationError
          "Cannot specify both 'contents' and 'input_file'. Please provide only one.") := by
      unfold validateConversionParams
      simp [hc, hif, throw, throwThe, MonadExceptOf.throw, Bind.bind, Except.bind]
    rw [hval]
    exact ⟨_, rfl⟩
  · rw [Bool.not_eq_true] at hif
    have hone : jsTruthy args.contents ≠ jsTruthy args.inFile := by
      rw [hc, hif]
      simp
    obtain ⟨fi, hfi⟩ : ∃ fi, validateInputFormat (jsOr args.inFormat "markdown") = .ok fi := by
      cases hx : validateInputFormat (jsOr args.inFormat "markdown") with
      | ok v => exact ⟨v, rfl⟩
      | error e => rw [hx] at hin; simp [Except.isOk, Except.toBool] at hin
    have hout2 : validateOutputFormat (jsOr args.outFormat "markdown") = .ok .PDF := by
      rw [hout]
      rfl
    have hval : validateConversionParams
        { contents := args.contents, inputFile := args.inFile,
          inputFormat := jsOr args.inFormat "markdown",
          outputFormat := jsOr args.outFormat "markdown",
          outputFile := args.outFile, referenceDoc := args.referenceDoc,
          defaultsFile := args.defaultsFile, filters := args.filters }
        = .error (.validationError
          ("Output format '" ++ PandocFormat.PDF.token
            ++ "' requires 'output_file' to be specified.")) := by
      rw [validateConversionParams_eq_of_one _ hone]
      simp only [hfi, hout2]
      simp [hof]
      decide
    rw [hval]
    exact ⟨_, rfl⟩

/-- Witness for C9: a concrete inline-contents request for `pdf` output
with no output file fails with a `ValidationError` and an empty effect
trace. -/
theorem pdf_inline_no_spawn_witness :
    ∃ m, handleConvertContents sampleHandlerEnv
      { contents := some "# hi", inFile := none, inFormat := none,
        outFormat := some "pdf", outFile := none, referenceDoc := none,
        defaultsFile := none, filters := none }
      = (.error (.validationError m), []) :=
  pdf_inline_no_spawn sampleHandlerEnv
    { contents := some "# hi", inFile := none, inFormat := none,
      outFormat := some "pdf", outFile := none, referenceDoc := none,
      defaultsFile := none, filters := none }
    (by decide) rfl (by decide) (by decide)

/-- C10: a request with an input file, no inline contents, an output
format that does not require file output, and no output file passes
parameter validation, yet the handler then fails with the plain untyped
`Invalid arguments` error outside the typed taxonomy, attempting no
conversion (empty effect trace). -/
theorem untyped_handler_error (env : HandlerEnv) (args : ToolArgs)
    (hc : jsTruthy args.contents = false)
    (hif : jsTruthy args.inFile = true)
    (hof : jsTruthy args.outFile = false)
    (fi fo : PandocFormat)
    (hfi : validateInputFormat (jsOr args.inFormat "markdown") = .ok fi)
    (hfo : validateOutputFormat (jsOr args.outFormat "markdown") = .ok fo)
    (hreq : requiresFileOutput fo = false)
    (hdef : args.defaultsFile = none)
    (hfil : args.filters = none) :
    validateConversionParams
      { contents := args.contents, inputFile := args.inFile,
        inputFormat := jsOr args.inFormat "markdown",
        outputFormat := jsOr args.outFormat "markdown",
        outputFile := args.outFile, referenceDoc := args.referenceDoc,
        defaultsFile := args.defaultsFile, filters := args.filters }
      = .ok (fi, fo)
    ∧ handleConvertContents env args
      = (.error (.genericError
          "Invalid arguments: must provide contents or both input_file and output_file"),
        []) := by
  have hone : jsTruthy args.contents ≠ jsTruthy args.inFile := by
    rw [hc, hif]
    simp
  have hval : validateConversionParams
      { contents := args.contents, inputFile := args.inFile,
        inputFormat := jsOr args.inFormat "markdown",
        outputFormat := jsOr args.outFormat "markdown",
        outputFile := args.outFile, referenceDoc := args.referenceDoc,
        defaultsFile := args.defaultsFile, filters := args.filters }
      = .ok (fi, fo) := by
    rw [validateConversionParams_eq_of_one _ hone]
    simp only [hfi, hfo]
    simp [hreq]
  refine ⟨hval, ?_⟩
  unfold handleConvertContents
  rw [hval]
  simp [hdef, hfil, hc, hif, hof]

/-- Witness for C10: a concrete file-input request with `html` output and
no output file validates but is then rejected by the handler with the
untyped error. -/
theorem untyped_handler_error_witness :
    validateConversionParams
      { contents := none, inputFile := some "/in.md", inputFormat := "markdown",
        outputFormat := "html", outputFile := none, referenceDoc := none,
        defaultsFile := none, filters := none }
      = .ok (.Markdown, .HTML)
    ∧ handleConvertContents sampleHandlerEnv
      { contents := none, inFile := some "/in.md", inFormat := none,
        outFormat := some "html", outFile := none, referenceDoc := none,
        defaultsFile := none, filters := none }
      = (.error (.genericError
          "Invalid arguments: must provide contents or both input_file and output_file"),
        []) :=
  untyped_handler_error sampleHandlerEnv
    { contents := none, inFile := some "/in.md", inFormat := none,
      outFormat := some "html", outFile := none, referenceDoc := none,
      defaultsFile := none, filters := none }
    (by decide) (by decide) (by decide) .Markdown .HTML rfl rfl (by decide) rfl rfl


/-- Counterexample to C9 as stated: a request for `pdf` output with inline
content, no output file, and an unknown input-format token fails with
`UnsupportedFormatError`, not `ValidationError` (still with an empty
effect trace). -/
theorem pdf_inline_no_spawn_cex :
    handleConvertContents sampleHandlerEnv
      { contents := some "# hi", inFile := none, inFormat := some "bogus",
        outFormat := some "pdf", outFile := none, referenceDoc := none,
        defaultsFile := none, filters := none }
      = (.error (.unsupportedFormat "bogus" ""), [])
    ∧ (PandocError.unsupportedFormat "bogus" "").isValidationError = false := by
  decide

/-- Counterexample to C10 as stated: with an unknown input-format token the
conditions of the claim hold but parameter validation does not succeed; and
with an unparsable defaults file parameter validation succeeds but the
handler fails with a typed `DefaultsFileError`, not the plain untyped
error. -/
theorem untyped_handler_error_cex :
    validateConversionParams
      { contents := none, inputFile := some "/in.md", inputFormat := "bogus",
        outputFormat := "html", outputFile := none, referenceDoc := none,
        defaultsFile := none, filters := none }
      = .error (.unsupportedFormat "bogus" "")
    ∧ handleConvertContents sampleHandlerEnv
      { contents := none, inFile := some "/in.md", inFormat := none,
        outFormat := some "html", outFile := none, referenceDoc := none,
        defaultsFile := some "bad.yaml", filters := none }
      = (.error (.defaultsFileError "Failed to parse YAML: unexpected token"
          (some "bad.yaml")), [.checkDefaults "bad.yaml"])
    ∧ (PandocError.defaultsFileError "Failed to parse YAML: unexpected token"
        (some "bad.yaml"))
      ≠ .genericError
        "Invalid arguments: must provide contents or both input_file and output_file" := by
  decide

end Pandoc
